import Mathlib

/-!
Verification development for the neuroglancer drawing/annotation overlay
(`src/custom/drawing_tool.ts`, `src/custom/drawing_tool_handler.ts` and the
unnamed handler variants).  The event-driven DOM code is shallowly embedded
as pure functions over explicit state records; JavaScript numbers occurring
in recorded points and bounds checks are modelled by `JSNum` (a finite
rational, `NaN`, or a signed infinity) so that the source's `isFinite`,
`!==`, `<` and `>=` tests keep their JavaScript semantics.
-/

/-- Model of a JavaScript number as used by the drawing tool: a finite value
(rationals stand in for IEEE doubles), `NaN`, or a signed infinity. -/
inductive JSNum where
  | fin (q : ℚ)
  | nan
  | inf (positive : Bool)
deriving DecidableEq, Repr

/-- JavaScript `isFinite`. -/
def JSNum.isFinite : JSNum → Bool
  | .fin _ => true
  | _ => false

/-- JavaScript strict equality `===` on numbers: `NaN === NaN` is false. -/
def JSNum.jsEq : JSNum → JSNum → Bool
  | .fin a, .fin b => a == b
  | .inf a, .inf b => a == b
  | _, _ => false

/-- JavaScript `<` on numbers: any comparison involving `NaN` is false. -/
def JSNum.jsLt : JSNum → JSNum → Bool
  | .fin a, .fin b => decide (a < b)
  | .fin _, .inf true => true
  | .inf false, .fin _ => true
  | .inf false, .inf true => true
  | _, _ => false

/-- JavaScript `>=` on numbers: any comparison involving `NaN` is false. -/
def JSNum.jsGe : JSNum → JSNum → Bool
  | .fin a, .fin b => decide (b ≤ a)
  | .inf true, .fin _ => true
  | .fin _, .inf false => true
  | .inf true, .inf true => true
  | .inf false, .inf false => true
  | .inf true, .inf false => true
  | _, _ => false

/-- JavaScript `Math.max` restricted to two arguments (`NaN` propagates). -/
def JSNum.jsMax : JSNum → JSNum → JSNum
  | .nan, _ => .nan
  | _, .nan => .nan
  | a, b => if JSNum.jsLt a b then b else a

/-- JavaScript `Math.round` (`floor (x + 1/2)` on finite values). -/
def JSNum.jsRound : JSNum → JSNum
  | .fin q => .fin (⌊q + 1/2⌋ : ℤ)
  | x => x

/-- Division of a JavaScript number by a nonzero finite rational (the only
division the handler performs after its truthiness guard on the divisor). -/
def JSNum.jsDivFin (a : JSNum) (q : ℚ) : JSNum :=
  match a with
  | .fin b => .fin (b / q)
  | .nan => .nan
  | .inf s => .inf (if q < 0 then !s else s)

/-- JavaScript `Math.min(...list)`: `Infinity` on the empty list. -/
def jsMinList (l : List ℚ) : JSNum :=
  match l.min? with
  | some m => .fin m
  | none => .inf true

/-- JavaScript truthiness of a nullable string (`null`/`undefined` and `""`
are falsy). -/
def truthyStr : Option String → Bool
  | none => false
  | some s => s != ""

/-- interface StrokePoint.  Coordinates are JavaScript numbers. -/
structure StrokePoint where
  x : JSNum
  y : JSNum
  z : JSNum
deriving DecidableEq, Repr

/-- The `{ x: NaN, y: NaN, z: NaN }` point returned by `voxelPoint` when the
mouse-state position is missing or too short. -/
def nanPoint : StrokePoint := ⟨.nan, .nan, .nan⟩

/-- function isValidPoint (part_000 line 64, part_001 line 206); the named
handler inlines the same `isFinite` conjunction. -/
def isValidPoint (p : StrokePoint) : Bool :=
  p.x.isFinite && p.y.isFinite && p.z.isFinite

/-- JavaScript `===` on all three coordinates, as tested by
`pushUniquePoint` and the inline last-point comparison. -/
def jsEqPoint (a b : StrokePoint) : Bool :=
  a.x.jsEq b.x && a.y.jsEq b.y && a.z.jsEq b.z

/-- function pushUniquePoint (part_000 lines 80-85, part_001 lines 222-227):
append `p` unless the array's last element equals it in x, y and z. -/
def pushUniquePoint (arr : List StrokePoint) (p : StrokePoint) : List StrokePoint :=
  match arr.getLast? with
  | some last => if jsEqPoint last p then arr else arr ++ [p]
  | none => arr ++ [p]

/-- The `bounds` object of the viewer's coordinate space. -/
structure DataBounds where
  lowerBounds : List JSNum
  upperBounds : List JSNum
deriving DecidableEq, Repr

/-- One iteration of the loop in `isInDataBounds`: component `i` must be
finite, not below the lower bound and strictly below the upper bound
(out-of-range bound reads are `undefined`, whose comparisons are false,
modelled by the `.nan` default). -/
def boundsCheck (pos : List JSNum) (b : DataBounds) (i : Nat) : Bool :=
  let v := pos.getD i .nan
  v.isFinite && !(v.jsLt (b.lowerBounds.getD i .nan)) && !(v.jsGe (b.upperBounds.getD i .nan))

/-- function isInDataBounds (part_000 lines 68-78, part_001 lines 210-220). -/
def isInDataBounds (position : Option (List JSNum)) (bounds : Option DataBounds) : Bool :=
  match position, bounds with
  | some pos, some b =>
    if pos.length < 3 then false
    else boundsCheck pos b 0 && boundsCheck pos b 1 && boundsCheck pos b 2
  | _, _ => false

/-- function voxelPoint of `drawing_tool_handler.ts` (lines 25-30) and
part_000 (lines 91-95): the first three components of the mouse-state
position, or a NaN point when the position is missing or shorter than 3. -/
def voxelPoint (position : Option (List JSNum)) : StrokePoint :=
  match position with
  | some p =>
    if p.length < 3 then nanPoint
    else ⟨p.getD 0 .nan, p.getD 1 .nan, p.getD 2 .nan⟩
  | none => nanPoint

/-- function voxelPoint of part_001 (lines 233-250): when the coordinate
space has at least 3 dimension names and all of "x", "y", "z" occur, the
components at those named dimensions are used; otherwise the first three
(out-of-range position reads are modelled by the `.nan` default). -/
def voxelPointNamed (position : Option (List JSNum)) (names : Option (List String)) :
    StrokePoint :=
  match position with
  | none => nanPoint
  | some p =>
    if p.length < 3 then nanPoint
    else
      match names with
      | some ns =>
        if 3 ≤ ns.length then
          match ns.indexOf? "x", ns.indexOf? "y", ns.indexOf? "z" with
          | some ix, some iy, some iz => ⟨p.getD ix .nan, p.getD iy .nan, p.getD iz .nan⟩
          | _, _, _ => ⟨p.getD 0 .nan, p.getD 1 .nan, p.getD 2 .nan⟩
        else ⟨p.getD 0 .nan, p.getD 1 .nan, p.getD 2 .nan⟩
      | none => ⟨p.getD 0 .nan, p.getD 1 .nan, p.getD 2 .nan⟩

/-- interface BrushStroke / BaseStroke: the data recorded for one brush or
eraser stroke. -/
structure Stroke where
  mode : String
  color : String
  physicalSize : ℚ
  voxelSizes : Option (List ℚ)
  timestamp : String
  points : List StrokePoint
deriving DecidableEq, Repr

/-- type Prompt = PromptPoint | PromptBBox | PromptScribble | PromptLasso. -/
inductive Prompt where
  | point (pt : StrokePoint) (polarity : String)
  | bbox (startPoint endPoint : StrokePoint) (polarity : String)
  | scribble (points : List StrokePoint) (polarity : String)
  | lasso (points : List StrokePoint) (polarity : String)
deriving DecidableEq, Repr

/-- The module-level capture state of the handler: `isCapturing`,
`currentStroke`, `currentPrompt`, `strokeData`, `promptData`. -/
structure CaptureState where
  isCapturing : Bool
  currentStroke : Option Stroke
  currentPrompt : Option Prompt
  strokeData : List Stroke
  promptData : List Prompt
deriving DecidableEq, Repr

/-- The capture state at module load. -/
def initialCaptureState : CaptureState := ⟨false, none, none, [], []⟩

/-- The inputs a mousedown handler reads: the drawing tool's trackable
values, the event's button and target (whether it lies inside a
rendered-data panel), and the viewer's mouse-state position, coordinate
space bounds and dimension names, plus the data recorded into a fresh
stroke (color, sizes, timestamp). -/
structure MouseDownEnv where
  activeMode : Option String
  promptMode : Option String
  promptPolarity : String
  button : Nat
  onDataPanel : Bool
  position : Option (List JSNum)
  bounds : Option DataBounds
  names : Option (List String)
  strokeColor : String
  brushPhysicalSize : ℚ
  voxelSizes : Option (List ℚ)
  timestamp : String
deriving Repr

/-- Shared tail of the three onMouseDown embeddings: given the voxel point
for this event, set `isCapturing` and create the current stroke or prompt
according to the active mode (canvas drawing and `startX`/`startY` tracking
are outside the modelled state).  `brushGuard` is the drawing-mode test of
the brush branch, which differs between the variants. -/
def mouseDownBranches (env : MouseDownEnv) (pt : StrokePoint) (brushGuard : Bool)
    (strokeMode : String) (st : CaptureState) : CaptureState :=
  let st1 : CaptureState := { st with isCapturing := true }
  let freshStroke : Stroke :=
    { mode := strokeMode, color := env.strokeColor,
      physicalSize := env.brushPhysicalSize, voxelSizes := env.voxelSizes,
      timestamp := env.timestamp,
      points := if isValidPoint pt then [pt] else [] }
  if brushGuard then
    { st1 with currentStroke := some freshStroke }
  else if env.promptMode == some "point" then
    if isValidPoint pt then
      { st1 with currentPrompt := some (.point pt env.promptPolarity) }
    else st1
  else if env.promptMode == some "bbox" then
    { st1 with currentPrompt := some (.bbox pt pt env.promptPolarity) }
  else if env.promptMode == some "scribble" then
    let pr : Prompt := .scribble (if isValidPoint pt then [pt] else []) env.promptPolarity
    { st1 with currentPrompt := some pr }
  else if env.promptMode == some "lasso" then
    let pr : Prompt := .lasso (if isValidPoint pt then [pt] else []) env.promptPolarity
    { st1 with currentPrompt := some pr }
  else st1

/-- onMouseDown of `drawing_tool_handler.ts` (lines 204-267): only the
mode/prompt-mode guard and the button guard; no data-panel or data-bounds
check.  The brush branch fires for "brush" and "eraser" and records the
mode value itself. -/
def onMouseDownH (env : MouseDownEnv) (st : CaptureState) : CaptureState :=
  if (!truthyStr env.activeMode && !truthyStr env.promptMode) || env.button != 0 then st
  else
    mouseDownBranches env (voxelPoint env.position)
      (env.activeMode == some "brush" || env.activeMode == some "eraser")
      (env.activeMode.getD "") st

/-- onMouseDown of part_000 (lines 249-311): additionally requires the event
target to lie on a rendered-data panel and the mouse position to be inside
the data bounds.  The brush branch fires only for mode "brush". -/
def onMouseDownP0 (env : MouseDownEnv) (st : CaptureState) : CaptureState :=
  if (!truthyStr env.activeMode && !truthyStr env.promptMode) || env.button != 0 then st
  else if !env.onDataPanel then st
  else if !isInDataBounds env.position env.bounds then st
  else
    mouseDownBranches env (voxelPoint env.position)
      (env.activeMode == some "brush") "brush" st

/-- onMouseDown of part_001 (lines 404-477): like part_000 but the brush
branch fires for "brush" or "eraser" (still recording mode "brush") and the
voxel point uses the named-dimension mapping. -/
def onMouseDownP1 (env : MouseDownEnv) (st : CaptureState) : CaptureState :=
  if (!truthyStr env.activeMode && !truthyStr env.promptMode) || env.button != 0 then st
  else if !env.onDataPanel then st
  else if !isInDataBounds env.position env.bounds then st
  else
    mouseDownBranches env (voxelPointNamed env.position env.names)
      (env.activeMode == some "brush" || env.activeMode == some "eraser") "brush" st

/-- The inputs a mousemove handler reads. -/
structure MoveEnv where
  onDataPanel : Bool
  position : Option (List JSNum)
  bounds : Option DataBounds
  names : Option (List String)
deriving Repr

/-- Shared recording step of the onMove handlers: extend the current stroke
or prompt with point `p` using the adjacent-duplicate check. -/
def moveRecord (p : StrokePoint) (st : CaptureState) : CaptureState :=
  match st.currentStroke with
  | some s => { st with currentStroke := some { s with points := pushUniquePoint s.points p } }
  | none =>
    match st.currentPrompt with
    | some (.bbox a _ pol) => { st with currentPrompt := some (.bbox a p pol) }
    | some (.scribble pts pol) =>
      { st with currentPrompt := some (.scribble (pushUniquePoint pts p) pol) }
    | some (.lasso pts pol) =>
      { st with currentPrompt := some (.lasso (pushUniquePoint pts p) pol) }
    | _ => st

/-- onMove of `drawing_tool_handler.ts` (lines 268-295): record the voxel
point only when all three coordinates are finite; brush strokes take the
inline adjacent-duplicate check, prompts update their shape.  Canvas
drawing (`enqueueDraw`) is outside the modelled state. -/
def onMoveH (env : MoveEnv) (st : CaptureState) : CaptureState :=
  if !st.isCapturing then st
  else if st.currentStroke.isNone && st.currentPrompt.isNone then st
  else if isValidPoint (voxelPoint env.position) then
    match st.currentStroke with
    | some s =>
      if s.mode == "brush" || s.mode == "eraser" then
        { st with currentStroke := some { s with points := pushUniquePoint s.points (voxelPoint env.position) } }
      else st
    | none => moveRecord (voxelPoint env.position) st
  else st

/-- onMove of part_000 (lines 334-360): skip recording when the pointer is
off the data panels or outside the data bounds; otherwise record the
first-three voxel point via `pushUniquePoint`. -/
def onMoveP0 (env : MoveEnv) (st : CaptureState) : CaptureState :=
  if !st.isCapturing then st
  else if st.currentStroke.isNone && st.currentPrompt.isNone then st
  else if !env.onDataPanel || !isInDataBounds env.position env.bounds then st
  else moveRecord (voxelPoint env.position) st

/-- onMove of part_001 (lines 518-544): as part_000 but with the
named-dimension voxel point. -/
def onMoveP1 (env : MoveEnv) (st : CaptureState) : CaptureState :=
  if !st.isCapturing then st
  else if st.currentStroke.isNone && st.currentPrompt.isNone then st
  else if !env.onDataPanel || !isInDataBounds env.position env.bounds then st
  else moveRecord (voxelPointNamed env.position env.names) st

/-- Messages the handler posts to the parent window on mouseup. -/
inductive OutMsg where
  | strokeComplete
  | strokeCompleteData (stroke : Stroke) (isEraser : Bool)
  | annotationStateUpdate (strokeCount : Nat) (canUndo : Bool) (canRedo : Bool)
  | promptComplete (prompts : List Prompt)
deriving DecidableEq, Repr

/-- Whether a posted message has type "drawing_stroke_complete" (with or
without the part_001 stroke payload). -/
def OutMsg.isStrokeComplete : OutMsg → Bool
  | .strokeComplete => true
  | .strokeCompleteData _ _ => true
  | _ => false

/-- onUp of `drawing_tool_handler.ts` (lines 296-319) and commitStroke of
part_000 (lines 318-332): push the finished stroke and/or prompt into the
accumulated data, clear it, end the capture

and post the completion messages (canvas compositing, snapshot and
`applyMode` are outside the modelled state). -/
def commitStrokeP0 (st : CaptureState) : CaptureState × List OutMsg :=
  let step1 : CaptureState × List OutMsg :=
    match st.currentStroke with
    | some s =>
      ({ st with strokeData := st.strokeData ++ [s], currentStroke := none,
                 isCapturing := false }, [OutMsg.strokeComplete])
    | none => (st, [])
  let st1 := step1.1
  match st1.currentPrompt with
  | some p =>
    ({ st1 with promptData := st1.promptData ++ [p], currentPrompt := none,
                isCapturing := false },
     step1.2 ++ [OutMsg.promptComplete (st1.promptData ++ [p])])
  | none => (st1, step1.2)

/-- commitStroke of part_001 (lines 484-516): as part_000 but the
"drawing_stroke_complete" message carries the stroke payload and an
`isEraser` flag, followed by an "annotation_state_update" message. -/
def commitStrokeP1 (activeMode : Option String) (isEraserFlag : Bool)
    (st : CaptureState) : CaptureState × List OutMsg :=
  let step1 : CaptureState × List OutMsg :=
    match st.currentStroke with
    | some s =>
      let sd := st.strokeData ++ [s]
      let isE : Bool := (activeMode == some "eraser") || isEraserFlag
      ({ st with strokeData := sd, currentStroke := none, isCapturing := false },
       [OutMsg.strokeCompleteData s isE,
        OutMsg.annotationStateUpdate sd.length (decide (0 < sd.length)) false])
    | none => (st, [])
  let st1 := step1.1
  match st1.currentPrompt with
  | some p =>
    ({ st1 with promptData := st1.promptData ++ [p], currentPrompt := none,
                isCapturing := false },
     step1.2 ++ [OutMsg.promptComplete (st1.promptData ++ [p])])
  | none => (st1, step1.2)

/-- interface LockedBBox (part_001 lines 65-72). -/
structure LockedBBox where
  xStart : ℚ
  xEnd : ℚ
  yStart : ℚ
  yEnd : ℚ
  zStart : ℚ
  zEnd : ℚ
deriving DecidableEq, Repr

/-- Outcome of a capture-phase event blocker: whether it called
`preventDefault` and `stopPropagation`. -/
structure BlockOutcome where
  prevented : Bool
  stopped : Bool
deriving DecidableEq, Repr

/-- The locked-view mousedown blocker of part_001 (lines 570-590): with a
locked bounding box set and the event target inside a slice-view panel, all
clicks are blocked when no drawing or prompt mode is active; with a mode
active only middle (1) and right (2) clicks are blocked and left clicks
pass through to the drawing handler. -/
def lockedNavBlocker (lockedBBox : Option LockedBBox) (onSliceViewPanel : Bool)
    (activeMode promptMode : Option String) (button : Nat) : BlockOutcome :=
  if lockedBBox.isNone then ⟨false, false⟩
  else if !onSliceViewPanel then ⟨false, false⟩
  else if !truthyStr activeMode && !truthyStr promptMode then ⟨true, true⟩
  else if button == 1 || button == 2 then ⟨true, true⟩
  else ⟨false, false⟩

/-- A keydown event as read by the capture-phase shortcut handler. -/
structure KeyEvent where
  key : String
  ctrlKey : Bool
  metaKey : Bool
  altKey : Bool
  shiftKey : Bool
deriving DecidableEq, Repr

/-- Messages the keydown handler posts to the parent window. -/
inductive KeyMsg where
  | portalAction (action : String)
  | pluginShortcut (key : String) (pluginId : String)
deriving DecidableEq, Repr

/-- Outcome of the keydown handler: `preventDefault`,
`stopImmediatePropagation`, and the posted message, if any. -/
structure KeyOutcome where
  prevented : Bool
  stoppedImmediate : Bool
  msg : Option KeyMsg
deriving DecidableEq, Repr

/-- JavaScript `toLowerCase` on a single character, for the ASCII range the
shortcut keys live in. -/
def lowerChar (c : Char) : Char :=
  if 65 ≤ c.toNat ∧ c.toNat ≤ 90 then Char.ofNat (c.toNat + 32) else c

/-- JavaScript `key.toLowerCase()` (ASCII range). -/
def jsToLower (s : String) : String := String.mk (s.data.map lowerChar)

/-- The `portalShortcuts` record (part_000 lines 593-597, part_001 lines
1096-1100): lower-cased key to portal action. -/
def portalShortcuts (key : String) : Option String :=
  if key == "s" then some "portal-save-scene"
  else if key == "d" then some "portal-download-roi"
  else if key == "k" then some "portal-show-cheatsheet"
  else none

/-- The keydown listener of part_000 (lines 602-628): Ctrl/Cmd plus a portal
key posts a "portal_action"; a plain key (no Ctrl/Cmd/Alt) posts a
"plugin_shortcut" when a plugin is active and the key is registered. -/
def handleKeydownP0 (activePluginId : Option String) (activePluginKeys : List String)
    (e : KeyEvent) : KeyOutcome :=
  let ctrlOrCmd := e.ctrlKey || e.metaKey
  let key := jsToLower e.key
  if ctrlOrCmd && (portalShortcuts key).isSome then
    ⟨true, true, some (.portalAction ((portalShortcuts key).getD ""))⟩
  else if truthyStr activePluginId && !ctrlOrCmd && !e.altKey
      && activePluginKeys.contains key then
    ⟨true, true, some (.pluginShortcut key (activePluginId.getD ""))⟩
  else ⟨false, false, none⟩

/-- The keydown listener of part_001 (lines 1105-1146): as part_000 with an
extra Ctrl/Cmd+Z undo/redo branch between the portal and plain-key
branches. -/
def handleKeydownP1 (activePluginId : Option String) (activePluginKeys : List String)
    (e : KeyEvent) : KeyOutcome :=
  let ctrlOrCmd := e.ctrlKey || e.metaKey
  let key := jsToLower e.key
  if ctrlOrCmd && (portalShortcuts key).isSome then
    ⟨true, true, some (.portalAction ((portalShortcuts key).getD ""))⟩
  else if truthyStr activePluginId && ctrlOrCmd && key == "z" then
    let shortcutKey :=
      if e.shiftKey then (if e.metaKey then "cmd+shift+z" else "ctrl+shift+z")
      else (if e.metaKey then "cmd+z" else "ctrl+z")
    ⟨true, true, some (.pluginShortcut shortcutKey (activePluginId.getD ""))⟩
  else if truthyStr activePluginId && !ctrlOrCmd && !e.altKey
      && activePluginKeys.contains key then
    ⟨true, true, some (.pluginShortcut key (activePluginId.getD ""))⟩
  else ⟨false, false, none⟩

/-- function activatePluginBindings (part_000 lines 630-633): register the
active plugin and its lower-cased shortcut set. -/
def activatePluginBindings (pluginId : String) (shortcuts : List String) :
    Option String × List String :=
  (some pluginId, shortcuts.map jsToLower)

/-- function deactivatePluginBindings (part_000 lines 635-638). -/
def deactivatePluginBindings : Option String × List String := (none, [])

/-- The navigation state the lock messages read and write: the position
value (a Float32Array, modelled as a rational vector) and the zoom factor
value, each `none` when absent. -/
structure NavState where
  position : Option (List ℚ)
  zoomFactor : Option ℚ
deriving DecidableEq, Repr

/-- The locked-view module state of part_001 (lines 73-75): `lockedBBox`,
`lockedPosition`, `lockedZoomFactor`, all initially null. -/
structure LockState where
  lockedBBox : Option LockedBBox
  lockedPosition : Option (List ℚ)
  lockedZoomFactor : Option ℚ
deriving DecidableEq, Repr

/-- The lock state at module load. -/
def initialLockState : LockState := ⟨none, none, none⟩

/-- Events relevant to the locked-view state: the three lock-related parent
messages, any other parent message (which touches neither the lock state
nor the navigation state), and an external navigation change by the user
(which replaces the position and zoom values). -/
inductive LockEvent where
  | msgViewLocked (bbox : Option LockedBBox)
  | msgViewUnlocked
  | msgReset
  | msgOther
  | navChange (pos : List ℚ) (zoom : ℚ)
deriving DecidableEq, Repr

/-- Whether the event is a "view_locked" or "view_unlocked" message. -/
def LockEvent.isLockControl : LockEvent → Bool
  | .msgViewLocked _ => true
  | .msgViewUnlocked => true
  | _ => false

/-- Processing of the "view_locked" (part_001 lines 800-813),
"view_unlocked" (lines 814-822) and "reset_to_locked_view" (lines 823-834)
messages, together with the non-lock events.  "view_locked" stores the
bbox and captures the current position and zoom when present;
"view_unlocked" clears all three; "reset_to_locked_view" writes the stored
position and zoom back into the navigation state when both sides are
present.  Canvas indicator drawing is outside the modelled state. -/
def lockStep (s : LockState × NavState) (e : LockEvent) : LockState × NavState :=
  match e with
  | .msgViewLocked bbox =>
    ({ lockedBBox := bbox,
       lockedPosition := match s.2.position with
         | some p => some p
         | none => s.1.lockedPosition,
       lockedZoomFactor := match s.2.zoomFactor with
         | some z => some z
         | none => s.1.lockedZoomFactor }, s.2)
  | .msgViewUnlocked => (⟨none, none, none⟩, s.2)
  | .msgReset =>
    let nav1 : NavState :=
      match s.1.lockedPosition, s.2.position with
      | some p, some _ => { s.2 with position := some p }
      | _, _ => s.2
    let nav2 : NavState :=
      match s.1.lockedZoomFactor, nav1.zoomFactor with
      | some z, some _ => { nav1 with zoomFactor := some z }
      | _, _ => nav1
    (s.1, nav2)
  | .msgOther => s
  | .navChange pos zoom => (s.1, ⟨some pos, some zoom⟩)

/-- Run a sequence of lock events. -/
def lockRun (s : LockState × NavState) (evs : List LockEvent) : LockState × NavState :=
  evs.foldl lockStep s

/-- The drawing-tool state the parent message listener reads and writes:
the accumulated stroke and prompt data, the trackable mode, polarity, size
and color values, and the overlay canvas content (as the list of drawing
operations currently on it; `clearRect` over the full canvas empties it). -/
structure DrawState where
  strokeData : List Stroke
  promptData : List Prompt
  activeMode : Option String
  promptMode : Option String
  promptPolarity : String
  brushPhysicalSize : ℚ
  brushPixelSize : JSNum
  strokeColor : String
  canvasOps : List String
deriving DecidableEq, Repr

/-- The state right after `DrawingTool` construction (drawing_tool.ts lines
13-18: both modes null, positive polarity, sizes 8 and 20, red) with empty
data and canvas. -/
def initialDrawState : DrawState :=
  ⟨[], [], none, none, "positive", 8, .fin 20, "#ff0000", []⟩

/-- The parent messages handled by the listener of
`drawing_tool_handler.ts` (lines 327-412) and part_000 (lines 375-501),
restricted to their payload fields that reach the modelled state. -/
inductive ParentMsg where
  | screenshot
  | drawingModeChange (mode : Option String)
  | promptModeChange (mode : Option String) (polarity : String)
  | drawingSizeChange (size : ℚ)
  | drawingColorChange (color : String)
  | drawingClear
  | promptClear
  | drawingSnapshot
  | segmentHover
  | segmentRecolor
  | invalidateChunks
  | getViewerState
  | pluginActivated (pluginId : String) (shortcuts : List String)
  | pluginDeactivated
  | unknown
deriving DecidableEq, Repr

/-- The message listener of `drawing_tool_handler.ts` (lines 327-412).
`ppp` is `calculatePhysicalSizePerPixel(viewer)` (null or a number; 0 is
falsy).  "drawing_snapshot" is modelled by the effect of its `onloadend`
callback (post, then clear canvas and strokes); messages that only touch
the viewer's layers or take screenshots leave the modelled state
unchanged. -/
def processMsgH (ppp : Option ℚ) (st : DrawState) (m : ParentMsg) : DrawState :=
  match m with
  | .drawingModeChange mode => { st with activeMode := mode, promptMode := none }
  | .promptModeChange mode pol =>
    { st with promptMode := mode, promptPolarity := pol, activeMode := none }
  | .drawingSizeChange size =>
    { st with brushPhysicalSize := size,
              brushPixelSize := match ppp with
                | some q => if q == 0 then .fin size else .fin (size / q)
                | none => .fin size }
  | .drawingColorChange color => { st with strokeColor := color }
  | .drawingClear => { st with strokeData := [], canvasOps := [] }
  | .promptClear => { st with promptData := [], canvasOps := [] }
  | .drawingSnapshot => { st with strokeData := [], canvasOps := [] }
  | _ => st

/-- The message listener of part_000 (lines 375-501): as the named handler
except that "drawing_size_change" clamps the pixel size from below by the
smallest voxel size in screen pixels (`voxelSizes` is
`calculatePhysicalSizePerVoxel(viewer)`). -/
def processMsgP0 (ppp : Option ℚ) (voxelSizes : Option (List ℚ)) (st : DrawState)
    (m : ParentMsg) : DrawState :=
  match m with
  | .drawingSizeChange size =>
    { st with brushPhysicalSize := size,
              brushPixelSize := match ppp with
                | some q =>
                  if q == 0 then .fin size
                  else
                    let minPx := match voxelSizes with
                      | some l => JSNum.jsMax (.fin 1) (JSNum.jsRound ((jsMinList l).jsDivFin q))
                      | none => .fin 1
                    JSNum.jsMax minPx (.fin (size / q))
                | none => .fin size }
  | m => processMsgH ppp st m

/-- The `u.unit === unit` entries of the scale-bar unit table.  Modelled
from the spec: `ALLOWED_UNITS` is imported from `#src/widget/scale_bar.js`,
which is not among the provided sources; it is the viewer's list of scale
bar length units, each pairing a unit name with its length in nanometers. -/
structure UnitEntry where
  unit : String
  lengthInNanometers : ℚ
deriving DecidableEq, Repr

/-- Modelled from the spec: the `ALLOWED_UNITS` table of
`#src/widget/scale_bar.js` (not among the provided sources) — the metric
length units the scale bar may display, from kilometers down to picometers,
with their lengths in nanometers. -/
def ALLOWED_UNITS : List UnitEntry :=
  [⟨"km", 1000000000000⟩, ⟨"m", 1000000000⟩, ⟨"mm", 1000000⟩,
   ⟨"µm", 1000⟩, ⟨"nm", 1⟩, ⟨"pm", 1/1000⟩]

/-- function convertLength (`drawing_tool_handler.ts` lines 41-50, part_000
lines 106-111, part_001 lines 261-266): look both units up in
`ALLOWED_UNITS`, throw when either is missing, otherwise scale by the ratio
of their nanometer lengths. -/
def convertLength (value : ℚ) (fromUnit toUnit : String) : Except String ℚ :=
  match ALLOWED_UNITS.find? (fun u => u.unit == fromUnit),
        ALLOWED_UNITS.find? (fun u => u.unit == toUnit) with
  | some f, some t => .ok (value * (f.lengthInNanometers / t.lengthInNanometers))
  | _, _ => .error "Unsupported unit conversion"

/-- C4: while a locked-view bounding box is set, a mousedown on a slice-view
panel is prevented and its propagation stopped whenever no drawing or prompt
mode is active (any button); with a mode active, middle (1) and right (2)
presses are prevented and stopped while left (0) presses pass through to
the drawing handler; with no locked bounding box the blocker does
nothing. -/
theorem claim4_locked_blocker (bbox : LockedBBox) (onPanel : Bool)
    (mode promptMode : Option String) (button : Nat) :
    (truthyStr mode = false → truthyStr promptMode = false →
      lockedNavBlocker (some bbox) true mode promptMode button = ⟨true, true⟩) ∧
    ((truthyStr mode = true ∨ truthyStr promptMode = true) →
      ((button = 1 ∨ button = 2) →
        lockedNavBlocker (some bbox) true mode promptMode button = ⟨true, true⟩) ∧
      (button = 0 →
        lockedNavBlocker (some bbox) true mode promptMode button = ⟨false, false⟩)) ∧
    lockedNavBlocker none onPanel mode promptMode button = ⟨false, false⟩ := by
  refine ⟨fun h1 h2 => by simp [lockedNavBlocker, h1, h2], fun h => ⟨fun hb => ?_, fun hb => ?_⟩,
    by simp [lockedNavBlocker]⟩
  · rcases h with h | h <;> rcases hb with hb | hb <;> simp [lockedNavBlocker, h, hb]
  · rcases h with h | h <;> simp [lockedNavBlocker, h, hb]

/-- Witness for C4 at a concrete locked box and events. -/
theorem claim4_locked_blocker_witness :
    lockedNavBlocker (some ⟨0, 1, 0, 1, 0, 1⟩) true none none 2 = ⟨true, true⟩ ∧
    lockedNavBlocker (some ⟨0, 1, 0, 1, 0, 1⟩) true (some "brush") none 1 = ⟨true, true⟩ ∧
    lockedNavBlocker (some ⟨0, 1, 0, 1, 0, 1⟩) true (some "brush") none 0 = ⟨false, false⟩ ∧
    lockedNavBlocker none true (some "brush") none 0 = ⟨false, false⟩ :=
  ⟨(claim4_locked_blocker ⟨0, 1, 0, 1, 0, 1⟩ true none none 2).1 rfl rfl,
   ((claim4_locked_blocker ⟨0, 1, 0, 1, 0, 1⟩ true (some "brush") none 1).2.1
     (Or.inl rfl)).1 (Or.inl rfl),
   ((claim4_locked_blocker ⟨0, 1, 0, 1, 0, 1⟩ true (some "brush") none 0).2.1
     (Or.inl rfl)).2 rfl,
   (claim4_locked_blocker ⟨0, 1, 0, 1, 0, 1⟩ true (some "brush") none 0).2.2⟩

/-- The frame condition the "drawing_clear" message must establish: strokes
and canvas emptied, everything else untouched. -/
def clearsStrokesOnly (st res : DrawState) : Prop :=
  res.strokeData = [] ∧ res.canvasOps = [] ∧ res.promptData = st.promptData ∧
  res.activeMode = st.activeMode ∧ res.promptMode = st.promptMode ∧
  res.promptPolarity = st.promptPolarity ∧
  res.brushPhysicalSize = st.brushPhysicalSize ∧
  res.brushPixelSize = st.brushPixelSize ∧ res.strokeColor = st.strokeColor

/-- The frame condition the "prompt_clear" message must establish: prompts
and canvas emptied, everything else untouched. -/
def clearsPromptsOnly (st res : DrawState) : Prop :=
  res.promptData = [] ∧ res.canvasOps = [] ∧ res.strokeData = st.strokeData ∧
  res.activeMode = st.activeMode ∧ res.promptMode = st.promptMode ∧
  res.promptPolarity = st.promptPolarity ∧
  res.brushPhysicalSize = st.brushPhysicalSize ∧
  res.brushPixelSize = st.brushPixelSize ∧ res.strokeColor = st.strokeColor

/-- C7: in both message listeners, "drawing_clear" empties the stroke data
and the overlay canvas and leaves the prompt data, modes, polarity, brush
sizes and stroke color unchanged, and "prompt_clear" empties the prompt
data and the canvas and leaves the stroke data and the same settings
unchanged. -/
theorem claim7_clear_frame (ppp : Option ℚ) (voxelSizes : Option (List ℚ))
    (st : DrawState) :
    clearsStrokesOnly st (processMsgH ppp st .drawingClear) ∧
    clearsPromptsOnly st (processMsgH ppp st .promptClear) ∧
    clearsStrokesOnly st (processMsgP0 ppp voxelSizes st .drawingClear) ∧
    clearsPromptsOnly st (processMsgP0 ppp voxelSizes st .promptClear) := by
  refine ⟨?_, ?_, ?_, ?_⟩ <;>
    simp [clearsStrokesOnly, clearsPromptsOnly, processMsgH, processMsgP0]

/-- At most one of the drawing mode and the prompt mode is set. -/
def modesExclusive (st : DrawState) : Prop :=
  st.activeMode = none ∨ st.promptMode = none

theorem processMsgH_modesExclusive (ppp : Option ℚ) (st : DrawState) (m : ParentMsg)
    (h : modesExclusive st) : modesExclusive (processMsgH ppp st m) := by
  cases m <;> simp [processMsgH, modesExclusive] <;>
    simpa [modesExclusive] using h

theorem processMsgP0_modesExclusive (ppp : Option ℚ) (voxelSizes : Option (List ℚ))
    (st : DrawState) (m : ParentMsg) (h : modesExclusive st) :
    modesExclusive (processMsgP0 ppp voxelSizes st m) := by
  cases m <;> simp [processMsgP0, processMsgH, modesExclusive] <;>
    simpa [modesExclusive] using h

/-- Run the named handler's listener over a message sequence, each message
with its own reading of `calculatePhysicalSizePerPixel`. -/
def runMsgsH (l : List (Option ℚ × ParentMsg)) (st : DrawState) : DrawState :=
  l.foldl (fun s em => processMsgH em.1 s em.2) st

/-- Run part_000's listener over a message sequence, each message with its
own readings of the per-pixel and per-voxel sizes. -/
def runMsgsP0 (l : List ((Option ℚ × Option (List ℚ)) × ParentMsg)) (st : DrawState) :
    DrawState :=
  l.foldl (fun s em => processMsgP0 em.1.1 em.1.2 s em.2) st

theorem runMsgsH_modesExclusive (l : List (Option ℚ × ParentMsg)) (st : DrawState)
    (h : modesExclusive st) : modesExclusive (runMsgsH l st) := by
  induction l generalizing st with
  | nil => simpa [runMsgsH] using h
  | cons e tl ih =>
    simpa [runMsgsH] using ih _ (processMsgH_modesExclusive e.1 st e.2 h)

theorem runMsgsP0_modesExclusive (l : List ((Option ℚ × Option (List ℚ)) × ParentMsg))
    (st : DrawState) (h : modesExclusive st) : modesExclusive (runMsgsP0 l st) := by
  induction l generalizing st with
  | nil => simpa [runMsgsP0] using h
  | cons e tl ih =>
    simpa [runMsgsP0] using ih _ (processMsgP0_modesExclusive e.1.1 e.1.2 st e.2 h)

/-- C9: starting from the initial drawing-tool state (both modes null),
after any sequence of parent messages processed by either listener at most
one of `activeMode` and `promptMode` is non-null: "drawing_mode_change"
nulls the prompt mode and "prompt_mode_change" nulls the drawing mode,
and no other message touches either. -/
theorem claim9_mode_exclusion (l : List (Option ℚ × ParentMsg))
    (l2 : List ((Option ℚ × Option (List ℚ)) × ParentMsg)) :
    modesExclusive (runMsgsH l initialDrawState) ∧
    modesExclusive (runMsgsP0 l2 initialDrawState) :=
  ⟨runMsgsH_modesExclusive l initialDrawState (Or.inl rfl),
   runMsgsP0_modesExclusive l2 initialDrawState (Or.inl rfl)⟩

/-- C3: on the mouseup that ends an active capture, a stroke in progress is
appended to `strokeData`, the current stroke is cleared, capturing ends and
a message of type "drawing_stroke_complete" is posted; a prompt in progress
is appended to `promptData`, the current prompt is cleared and a
"prompt_complete" message carrying the entire accumulated prompt list is
posted — in the named handler and part_000 (`commitStrokeP0`) as well as in
part_001 (`commitStrokeP1`). -/
theorem claim3_commit_effects (st : CaptureState) (s : Stroke) (p : Prompt)
    (am : Option String) (ef : Bool) :
    (st.currentStroke = some s →
      (commitStrokeP0 st).1.strokeData = st.strokeData ++ [s] ∧
      (commitStrokeP0 st).1.currentStroke = none ∧
      (commitStrokeP0 st).1.isCapturing = false ∧
      OutMsg.strokeComplete ∈ (commitStrokeP0 st).2 ∧
      (commitStrokeP1 am ef st).1.strokeData = st.strokeData ++ [s] ∧
      (commitStrokeP1 am ef st).1.currentStroke = none ∧
      (commitStrokeP1 am ef st).1.isCapturing = false ∧
      (∃ m ∈ (commitStrokeP1 am ef st).2, m.isStrokeComplete = true)) ∧
    (st.currentPrompt = some p →
      (commitStrokeP0 st).1.promptData = st.promptData ++ [p] ∧
      (commitStrokeP0 st).1.currentPrompt = none ∧
      (commitStrokeP0 st).1.isCapturing = false ∧
      OutMsg.promptComplete (st.promptData ++ [p]) ∈ (commitStrokeP0 st).2 ∧
      (commitStrokeP1 am ef st).1.promptData = st.promptData ++ [p] ∧
      (commitStrokeP1 am ef st).1.currentPrompt = none ∧
      OutMsg.promptComplete (st.promptData ++ [p]) ∈ (commitStrokeP1 am ef st).2) := by
  constructor
  · intro hs
    cases hp : st.currentPrompt <;>
      simp [commitStrokeP0, commitStrokeP1, hs, hp, OutMsg.isStrokeComplete]
  · intro hp
    cases hs : st.currentStroke <;>
      simp [commitStrokeP0, commitStrokeP1, hs, hp, OutMsg.isStrokeComplete]

/-- Witness for C3 at a concrete capture with a stroke and, separately, a
prompt in progress. -/
theorem claim3_commit_effects_witness :
    (commitStrokeP0 ⟨true, some ⟨"brush", "#ff0000", 8, none, "t", []⟩, none, [], []⟩).1.strokeData =
      [⟨"brush", "#ff0000", 8, none, "t", []⟩] ∧
    (commitStrokeP0 ⟨true, none, some (.point nanPoint "positive"), [], []⟩).1.promptData =
      [.point nanPoint "positive"] :=
  ⟨((claim3_commit_effects ⟨true, some ⟨"brush", "#ff0000", 8, none, "t", []⟩, none, [], []⟩
      ⟨"brush", "#ff0000", 8, none, "t", []⟩ (.point nanPoint "positive") none false).1 rfl).1,
   ((claim3_commit_effects ⟨true, none, some (.point nanPoint "positive"), [], []⟩
      ⟨"brush", "#ff0000", 8, none, "t", []⟩ (.point nanPoint "positive") none false).2 rfl).1⟩

/-- C5: with Ctrl or Meta held, a key lower-casing to "s", "d" or "k" is
prevented, its immediate propagation stopped, and a "portal_action" message
with the matching portal action is posted, in both keydown listeners; a
plain key (no Ctrl/Meta/Alt) is intercepted and forwarded as a
"plugin_shortcut" message exactly when a plugin is active and the
lower-cased key is in its registered shortcut set. -/
theorem claim5_keyboard_shortcuts (pid : Option String) (keys : List String)
    (e : KeyEvent) :
    ((e.ctrlKey = true ∨ e.metaKey = true) →
      (jsToLower e.key = "s" →
        handleKeydownP0 pid keys e = ⟨true, true, some (.portalAction "portal-save-scene")⟩ ∧
        handleKeydownP1 pid keys e = ⟨true, true, some (.portalAction "portal-save-scene")⟩) ∧
      (jsToLower e.key = "d" →
        handleKeydownP0 pid keys e = ⟨true, true, some (.portalAction "portal-download-roi")⟩ ∧
        handleKeydownP1 pid keys e = ⟨true, true, some (.portalAction "portal-download-roi")⟩) ∧
      (jsToLower e.key = "k" →
        handleKeydownP0 pid keys e = ⟨true, true, some (.portalAction "portal-show-cheatsheet")⟩ ∧
        handleKeydownP1 pid keys e = ⟨true, true, some (.portalAction "portal-show-cheatsheet")⟩)) ∧
    (e.ctrlKey = false → e.metaKey = false → e.altKey = false →
      ((truthyStr pid = true ∧ keys.contains (jsToLower e.key) = true) →
        handleKeydownP0 pid keys e =
          ⟨true, true, some (.pluginShortcut (jsToLower e.key) (pid.getD ""))⟩ ∧
        handleKeydownP1 pid keys e =
          ⟨true, true, some (.pluginShortcut (jsToLower e.key) (pid.getD ""))⟩) ∧
      (¬(truthyStr pid = true ∧ keys.contains (jsToLower e.key) = true) →
        handleKeydownP0 pid keys e = ⟨false, false, none⟩ ∧
        handleKeydownP1 pid keys e = ⟨false, false, none⟩)) := by
  constructor
  · intro hc
    have hcc : (e.ctrlKey || e.metaKey) = true := by
      rcases hc with h | h <;> simp [h]
    refine ⟨fun hk => ?_, fun hk => ?_, fun hk => ?_⟩ <;>
      simp [handleKeydownP0, handleKeydownP1, hcc, hk, portalShortcuts]
  · intro h1 h2 h3
    have hcc : (e.ctrlKey || e.metaKey) = false := by simp [h1, h2]
    constructor
    · rintro ⟨hp, hk⟩
      have hk2 : jsToLower e.key ∈ keys := by simpa using hk
      simp [handleKeydownP0, handleKeydownP1, hcc, h3, hp, hk, hk2]
    · intro hn
      rcases Bool.eq_false_or_eq_true (truthyStr pid) with hp | hp
      · rcases Bool.eq_false_or_eq_true (keys.contains (jsToLower e.key)) with hk | hk
        · exact absurd ⟨hp, hk⟩ hn
        · have hk2 : jsToLower e.key ∉ keys := by simpa using hk
          simp [handleKeydownP0, handleKeydownP1, hcc, h3, hp, hk, hk2]
      · simp [handleKeydownP0, handleKeydownP1, hcc, h3, hp]

/-- Witness for C5 at concrete key events. -/
theorem claim5_keyboard_shortcuts_witness :
    handleKeydownP0 (some "seg") ["a"] ⟨"d", true, false, false, false⟩ =
      ⟨true, true, some (.portalAction "portal-download-roi")⟩ ∧
    handleKeydownP1 (some "seg") ["a"] ⟨"A", false, false, false, false⟩ =
      ⟨true, true, some (.pluginShortcut "a" "seg")⟩ ∧
    handleKeydownP0 none ["a"] ⟨"a", false, false, false, false⟩ = ⟨false, false, none⟩ :=
  ⟨(((claim5_keyboard_shortcuts (some "seg") ["a"] ⟨"d", true, false, false, false⟩).1
      (Or.inl rfl)).2.1 (by decide)).1,
   (((claim5_keyboard_shortcuts (some "seg") ["a"] ⟨"A", false, false, false, false⟩).2
      rfl rfl rfl).1 ⟨by decide, by decide⟩).2,
   (((claim5_keyboard_shortcuts none ["a"] ⟨"a", false, false, false, false⟩).2
      rfl rfl rfl).2 (by decide)).1⟩

theorem allowed_units_pos : ∀ u ∈ ALLOWED_UNITS, 0 < u.lengthInNanometers := by
  intro u hu
  fin_cases hu <;> norm_num

/-- Whether a `convertLength` call returned normally instead of throwing. -/
def convertOk : Except String ℚ → Bool
  | .ok _ => true
  | .error _ => false

/-- C10: `convertLength` fails exactly when the source or target unit does
not occur in `ALLOWED_UNITS`; when both occur it returns the value times
the ratio of the looked-up nanometer lengths, and converting from a unit to
itself returns the value unchanged. -/
theorem claim10_convert_length (value : ℚ) (fromUnit toUnit : String) :
    (convertOk (convertLength value fromUnit toUnit) = true ↔
      (∃ u ∈ ALLOWED_UNITS, u.unit = fromUnit) ∧ (∃ u ∈ ALLOWED_UNITS, u.unit = toUnit)) ∧
    (∀ f t, ALLOWED_UNITS.find? (fun u => u.unit == fromUnit) = some f →
      ALLOWED_UNITS.find? (fun u => u.unit == toUnit) = some t →
      convertLength value fromUnit toUnit =
        .ok (value * (f.lengthInNanometers / t.lengthInNanometers))) ∧
    ((∃ u ∈ ALLOWED_UNITS, u.unit = fromUnit) →
      convertLength value fromUnit fromUnit = .ok value) := by
  have hmem : ∀ s : String,
      (ALLOWED_UNITS.find? (fun u => u.unit == s)).isSome = true ↔
        ∃ u ∈ ALLOWED_UNITS, u.unit = s := by
    intro s
    rw [List.find?_isSome]
    simp
  refine ⟨?_, ?_, ?_⟩
  · constructor
    · intro h
      cases hf : ALLOWED_UNITS.find? (fun u => u.unit == fromUnit) with
      | none => simp [convertLength, hf, convertOk] at h
      | some f =>
        cases ht : ALLOWED_UNITS.find? (fun u => u.unit == toUnit) with
        | none => simp [convertLength, hf, ht, convertOk] at h
        | some t =>
          exact ⟨(hmem fromUnit).mp (by simp [hf]), (hmem toUnit).mp (by simp [ht])⟩
    · rintro ⟨hA, hB⟩
      obtain ⟨f, hf⟩ := Option.isSome_iff_exists.mp ((hmem fromUnit).mpr hA)
      obtain ⟨t, ht⟩ := Option.isSome_iff_exists.mp ((hmem toUnit).mpr hB)
      simp [convertLength, hf, ht, convertOk]
  · intro f t hf ht
    simp [convertLength, hf, ht]
  · intro h
    obtain ⟨f, hf⟩ := Option.isSome_iff_exists.mp ((hmem fromUnit).mpr h)
    have hpos : 0 < f.lengthInNanometers :=
      allowed_units_pos f (List.mem_of_find?_eq_some hf)
    simp [convertLength, hf, div_self (ne_of_gt hpos)]

/-- Witness for C10: a concrete round trip and a concrete ratio. -/
theorem claim10_convert_length_witness :
    convertLength 5 "m" "m" = .ok 5 ∧
    convertLength 5 "m" "µm" = .ok (5 * ((1000000000 : ℚ) / 1000)) :=
  ⟨(claim10_convert_length 5 "m" "m").2.2
      ⟨⟨"m", 1000000000⟩, by simp [ALLOWED_UNITS], rfl⟩,
   (claim10_convert_length 5 "m" "µm").2.1 ⟨"m", 1000000000⟩ ⟨"µm", 1000⟩
      (by simp [ALLOWED_UNITS, List.find?]) (by simp [ALLOWED_UNITS, List.find?])⟩

theorem mouseDownBranches_isCapturing (env : MouseDownEnv) (pt : StrokePoint)
    (bg : Bool) (sm : String) (st : CaptureState) :
    (mouseDownBranches env pt bg sm st).isCapturing = true := by
  simp only [mouseDownBranches]
  split_ifs <;> rfl

/-- A concrete mousedown for C1: brush mode active, left button, but the
target is off the data panels and the viewer has no mouse position (so the
data-bounds test fails). -/
def c1env : MouseDownEnv :=
  { activeMode := some "brush", promptMode := none, promptPolarity := "positive",
    button := 0, onDataPanel := false, position := none, bounds := none,
    names := none, strokeColor := "#ff0000", brushPhysicalSize := 8,
    voxelSizes := none, timestamp := "t" }

/-- C1 counterexample: in `drawing_tool_handler.ts` the mousedown handler
checks neither the data-panel nor the data-bounds condition — at `c1env`
(target off-panel and out-of-bounds mouse position) it still starts a
capture and modifies the capture state, contrary to the claim that the
handler returns with the state unchanged in every such case. -/
theorem claim1_counterexample :
    truthyStr c1env.activeMode = true ∧ c1env.button = 0 ∧
    c1env.onDataPanel = false ∧ isInDataBounds c1env.position c1env.bounds = false ∧
    (onMouseDownH c1env initialCaptureState).isCapturing = true ∧
    onMouseDownH c1env initialCaptureState ≠ initialCaptureState := by
  refine ⟨rfl, rfl, rfl, rfl, rfl, ?_⟩
  intro h
  have := congrArg CaptureState.isCapturing h
  simp [onMouseDownH, mouseDownBranches, c1env, initialCaptureState, truthyStr] at this

/-- C1 (amended): in the bounds-checking handlers (part_000 and part_001) a
capture starts exactly under the claim's four conditions — a drawing or
prompt mode active, left button, target on a rendered-data panel, mouse
position finite and inside the data bounds — and whenever any condition
fails the handler returns with the capture state untouched; in the handler
of `drawing_tool_handler.ts` only the first two conditions are checked, so
a capture starts whenever a mode is active and the button is 0, regardless
of panel or bounds. -/
theorem claim1_capture_guard (env : MouseDownEnv) (st : CaptureState) :
    (((truthyStr env.activeMode = false ∧ truthyStr env.promptMode = false) ∨
        env.button ≠ 0 ∨ env.onDataPanel = false ∨
        isInDataBounds env.position env.bounds = false) →
      onMouseDownP0 env st = st ∧ onMouseDownP1 env st = st) ∧
    ((truthyStr env.activeMode = true ∨ truthyStr env.promptMode = true) →
      env.button = 0 → env.onDataPanel = true →
      isInDataBounds env.position env.bounds = true →
      (onMouseDownP0 env st).isCapturing = true ∧
      (onMouseDownP1 env st).isCapturing = true) ∧
    ((truthyStr env.activeMode = true ∨ truthyStr env.promptMode = true) →
      env.button = 0 →
      (onMouseDownH env st).isCapturing = true) := by
  refine ⟨?_, ?_, ?_⟩
  · rintro (⟨h1, h2⟩ | h | h | h) <;>
      constructor <;>
      simp [onMouseDownP0, onMouseDownP1, *]
  · intro hm hb hp hib
    have hg : ((!truthyStr env.activeMode && !truthyStr env.promptMode) ||
        env.button != 0) = false := by
      rcases hm with h | h <;> simp [h, hb]
    constructor <;>
      · simp only [onMouseDownP0, onMouseDownP1, hg, hp, hib, Bool.not_true,
          Bool.false_eq_true, if_false]
        exact mouseDownBranches_isCapturing ..
  · intro hm hb
    have hg : ((!truthyStr env.activeMode && !truthyStr env.promptMode) ||
        env.button != 0) = false := by
      rcases hm with h | h <;> simp [h, hb]
    simp only [onMouseDownH, hg, Bool.false_eq_true, if_false]
    exact mouseDownBranches_isCapturing ..

/-- A concrete in-bounds mousedown for the C1 witness. -/
def c1good : MouseDownEnv :=
  { activeMode := some "brush", promptMode := none, promptPolarity := "positive",
    button := 0, onDataPanel := true,
    position := some [.fin 1, .fin 2, .fin 3],
    bounds := some ⟨[.fin 0, .fin 0, .fin 0], [.fin 10, .fin 10, .fin 10]⟩,
    names := none, strokeColor := "#ff0000", brushPhysicalSize := 8,
    voxelSizes := none, timestamp := "t" }

/-- Witness for C1 (amended) at concrete events. -/
theorem claim1_capture_guard_witness :
    onMouseDownP0 c1env initialCaptureState = initialCaptureState ∧
    (onMouseDownP0 c1good initialCaptureState).isCapturing = true ∧
    (onMouseDownH c1good initialCaptureState).isCapturing = true :=
  ⟨((claim1_capture_guard c1env initialCaptureState).1
      (Or.inr (Or.inr (Or.inl rfl)))).1,
   ((claim1_capture_guard c1good initialCaptureState).2.1
      (Or.inl rfl) rfl rfl (by decide)).1,
   (claim1_capture_guard c1good initialCaptureState).2.2 (Or.inl rfl) rfl⟩

/-- A stroke in progress for the C2 counterexample. -/
def c2stroke : Stroke :=
  { mode := "brush", color := "#ff0000", physicalSize := 8, voxelSizes := none,
    timestamp := "t", points := [] }

/-- A mousemove for C2 over a viewer whose coordinate space lists its
dimensions in the order z, y, x, with mouse position (1, 2, 3) in that
coordinate order. -/
def c2env : MoveEnv :=
  { onDataPanel := true, position := some [.fin 1, .fin 2, .fin 3],
    bounds := some ⟨[.fin 0, .fin 0, .fin 0], [.fin 10, .fin 10, .fin 10]⟩,
    names := some ["z", "y", "x"] }

/-- The capture state during the C2 stroke. -/
def c2st : CaptureState := ⟨true, some c2stroke, none, [], []⟩

/-- C2 counterexample: part_000's onMove (like the named handler's) records
the first three position components even though all three dimension names
"x", "y", "z" are present — at `c2env` the component at the dimension named
"x" is 3, yet the recorded point has x = 1. -/
theorem claim2_counterexample :
    (onMoveP0 c2env c2st).currentStroke =
      some { c2stroke with points := [⟨.fin 1, .fin 2, .fin 3⟩] } ∧
    (c2env.names.getD []).indexOf? "x" = some 2 ∧
    (c2env.names.getD []).indexOf? "y" = some 1 ∧
    (c2env.names.getD []).indexOf? "z" = some 0 ∧
    (c2env.position.getD []).getD 2 .nan = .fin 3 ∧
    JSNum.fin 1 ≠ JSNum.fin 3 := by decide

/-- C2 (amended): points are recorded as the viewer's mouse position read
by the variant's own `voxelPoint` — part_001 maps through the dimension
names "x", "y", "z" when at least three names are present and all three
occur, while `drawing_tool_handler.ts` and part_000 always take the first
three components; in every variant a missing or too-short position yields
the (NaN, NaN, NaN) point, which is never recorded. -/
theorem claim2_voxel_recording (pos : Option (List JSNum)) (names : Option (List String))
    (p : List JSNum) (ns : List String) (ix iy iz : Nat) (env : MoveEnv)
    (st : CaptureState) (s : Stroke) :
    (pos = some p → ¬p.length < 3 → names = some ns → 3 ≤ ns.length →
      ns.indexOf? "x" = some ix → ns.indexOf? "y" = some iy → ns.indexOf? "z" = some iz →
      voxelPointNamed pos names = ⟨p.getD ix .nan, p.getD iy .nan, p.getD iz .nan⟩) ∧
    (pos = some p → ¬p.length < 3 →
      voxelPoint pos = ⟨p.getD 0 .nan, p.getD 1 .nan, p.getD 2 .nan⟩) ∧
    ((pos = none ∨ (pos = some p ∧ p.length < 3)) →
      voxelPoint pos = nanPoint ∧ voxelPointNamed pos names = nanPoint) ∧
    ((env.position = none ∨ (env.position = some p ∧ p.length < 3)) →
      onMoveH env st = st ∧ onMoveP0 env st = st ∧ onMoveP1 env st = st) ∧
    (st.isCapturing = true → st.currentStroke = some s → env.onDataPanel = true →
      isInDataBounds env.position env.bounds = true →
      onMoveP1 env st = moveRecord (voxelPointNamed env.position env.names) st ∧
      onMoveP0 env st = moveRecord (voxelPoint env.position) st) := by
  refine ⟨?_, ?_, ?_, ?_, ?_⟩
  · intro hp h3 hn hl hx hy hz
    simp [voxelPointNamed, hp, h3, hn, hl, hx, hy, hz]
  · intro hp h3
    simp [voxelPoint, hp, h3]
  · rintro (h | ⟨h, hlen⟩)
    · simp [voxelPoint, voxelPointNamed, h]
    · cases hn : names <;> simp [voxelPoint, voxelPointNamed, h, hlen, hn]
  · rintro (h | ⟨h, hlen⟩)
    · refine ⟨?_, ?_, ?_⟩ <;>
        simp [onMoveH, onMoveP0, onMoveP1, isInDataBounds, voxelPoint, h,
          nanPoint, isValidPoint, JSNum.isFinite]
    · have hnan : voxelPoint env.position = nanPoint := by simp [voxelPoint, h, hlen]
      have hb : isInDataBounds env.position env.bounds = false := by
        cases hbb : env.bounds <;> simp [isInDataBounds, h, hlen, hbb]
      refine ⟨?_, ?_, ?_⟩ <;>
        simp [onMoveH, onMoveP0, onMoveP1, hnan, hb, nanPoint, isValidPoint,
          JSNum.isFinite]
  · intro hc hs hp hib
    have h2 : (st.currentStroke.isNone && st.currentPrompt.isNone) = false := by
      simp [hs]
    constructor <;> simp [onMoveP1, onMoveP0, hc, h2, hp, hib]

/-- A capture state with an in-progress stroke for the C2 witness. -/
def c2wst : CaptureState := ⟨true, some c2stroke, none, [], []⟩

/-- Witness for C2 (amended) at concrete inputs. -/
theorem claim2_voxel_recording_witness :
    voxelPointNamed (some [.fin 1, .fin 2, .fin 3]) (some ["z", "y", "x"]) =
      ⟨.fin 3, .fin 2, .fin 1⟩ ∧
    voxelPoint (some [.fin 1, .fin 2, .fin 3]) = ⟨.fin 1, .fin 2, .fin 3⟩ ∧
    (voxelPoint none = nanPoint ∧ voxelPointNamed none (some ["z", "y", "x"]) = nanPoint) ∧
    (onMoveH ⟨true, none, none, some ["z", "y", "x"]⟩ c2wst = c2wst ∧
      onMoveP0 ⟨true, none, none, some ["z", "y", "x"]⟩ c2wst = c2wst ∧
      onMoveP1 ⟨true, none, none, some ["z", "y", "x"]⟩ c2wst = c2wst) ∧
    onMoveP1 c2env c2wst =
      moveRecord (voxelPointNamed c2env.position c2env.names) c2wst := by
  have h := claim2_voxel_recording (some [.fin 1, .fin 2, .fin 3]) (some ["z", "y", "x"])
    [.fin 1, .fin 2, .fin 3] ["z", "y", "x"] 2 1 0
    ⟨true, none, none, some ["z", "y", "x"]⟩ c2wst c2stroke
  have h2 := claim2_voxel_recording (some [.fin 1, .fin 2, .fin 3]) (some ["z", "y", "x"])
    [.fin 1, .fin 2, .fin 3] ["z", "y", "x"] 2 1 0 c2env c2wst c2stroke
  have h0 := claim2_voxel_recording none (some ["z", "y", "x"])
    [] ["z", "y", "x"] 2 1 0
    ⟨true, none, none, some ["z", "y", "x"]⟩ c2wst c2stroke
  exact ⟨h.1 rfl (by decide) rfl (by decide) (by decide) (by decide) (by decide),
    h.2.1 rfl (by decide),
    h0.2.2.1 (Or.inl rfl),
    h0.2.2.2.1 (Or.inl rfl),
    (h2.2.2.2.2 rfl rfl rfl (by decide)).1⟩

/-- No two consecutive points of the list are equal in all of x, y and z
(equality taken as the JavaScript strict equality the code tests). -/
def noAdjacentDup (l : List StrokePoint) : Prop :=
  List.Chain' (fun a b => jsEqPoint a b = false) l

theorem pushUniquePoint_noAdjacentDup (l : List StrokePoint) (p : StrokePoint)
    (h : noAdjacentDup l) : noAdjacentDup (pushUniquePoint l p) := by
  unfold pushUniquePoint noAdjacentDup
  cases hl : l.getLast? with
  | none =>
    have : l = [] := List.getLast?_eq_none_iff.mp hl
    subst this
    exact List.chain'_singleton p
  | some last =>
    show List.Chain' (fun a b => jsEqPoint a b = false)
      (if jsEqPoint last p = true then l else l ++ [p])
    by_cases he : jsEqPoint last p = true
    · simpa [he] using h
    · have he2 : jsEqPoint last p = false := by
        cases hb : jsEqPoint last p
        · rfl
        · exact absurd hb he
      rw [if_neg he]
      rw [List.chain'_append]
      refine ⟨h, List.chain'_singleton p, ?_⟩
      intro x hx y hy
      rw [hl] at hx
      simp at hx hy
      subst hx
      subst hy
      exact he2

/-- The adjacent-duplicate invariant over the whole capture state: the
points of the stroke in progress, of any scribble or lasso prompt in
progress, and of every committed stroke or prompt. -/
def captureInv (st : CaptureState) : Prop :=
  (∀ s, st.currentStroke = some s → noAdjacentDup s.points) ∧
  (∀ pts pol, st.currentPrompt = some (.scribble pts pol) → noAdjacentDup pts) ∧
  (∀ pts pol, st.currentPrompt = some (.lasso pts pol) → noAdjacentDup pts) ∧
  (∀ s ∈ st.strokeData, noAdjacentDup s.points) ∧
  (∀ pts pol, Prompt.scribble pts pol ∈ st.promptData → noAdjacentDup pts) ∧
  (∀ pts pol, Prompt.lasso pts pol ∈ st.promptData → noAdjacentDup pts)

theorem moveRecord_captureInv (p : StrokePoint) (st : CaptureState)
    (h : captureInv st) : captureInv (moveRecord p st) := by
  obtain ⟨h1, h2, h3, h4, h5, h6⟩ := h
  cases hs : st.currentStroke with
  | some s =>
    simp only [moveRecord, hs]
    refine ⟨?_, h2, h3, h4, h5, h6⟩
    intro a ha
    simp only [Option.some.injEq] at ha
    subst ha
    exact pushUniquePoint_noAdjacentDup s.points p (h1 s hs)
  | none =>
    cases hp : st.currentPrompt with
    | none =>
      simp only [moveRecord, hs, hp]
      exact ⟨h1, h2, h3, h4, h5, h6⟩
    | some pr =>
      cases pr with
      | point pt pol =>
        simp only [moveRecord, hs, hp]
        exact ⟨h1, h2, h3, h4, h5, h6⟩
      | bbox a b pol =>
        simp only [moveRecord, hs, hp]
        refine ⟨?_, ?_, ?_, h4, h5, h6⟩
        · intro s hq
          cases hq
        · intro pts2 pol2 hq
          simp at hq
        · intro pts2 pol2 hq
          simp at hq
      | scribble pts pol =>
        simp only [moveRecord, hs, hp]
        refine ⟨?_, ?_, ?_, h4, h5, h6⟩
        · intro s hq
          cases hq
        · intro pts2 pol2 hq
          simp only [Option.some.injEq, Prompt.scribble.injEq] at hq
          obtain ⟨hq1, hq2⟩ := hq
          subst hq1
          exact pushUniquePoint_noAdjacentDup pts p (h2 pts pol hp)
        · intro pts2 pol2 hq
          simp at hq
      | lasso pts pol =>
        simp only [moveRecord, hs, hp]
        refine ⟨?_, ?_, ?_, h4, h5, h6⟩
        · intro s hq
          cases hq
        · intro pts2 pol2 hq
          simp at hq
        · intro pts2 pol2 hq
          simp only [Option.some.injEq, Prompt.lasso.injEq] at hq
          obtain ⟨hq1, hq2⟩ := hq
          subst hq1
          exact pushUniquePoint_noAdjacentDup pts p (h3 pts pol hp)

theorem noAdjacentDup_short (c : Bool) (pt : StrokePoint) :
    noAdjacentDup (if c = true then [pt] else []) := by
  split
  · exact List.chain'_singleton pt
  · exact List.chain'_nil

theorem mouseDownBranches_shape (env : MouseDownEnv) (pt : StrokePoint)
    (bg : Bool) (sm : String) (st : CaptureState) :
    (mouseDownBranches env pt bg sm st).strokeData = st.strokeData ∧
    (mouseDownBranches env pt bg sm st).promptData = st.promptData ∧
    ((mouseDownBranches env pt bg sm st).currentStroke = st.currentStroke ∨
      (mouseDownBranches env pt bg sm st).currentStroke =
        some { mode := sm, color := env.strokeColor,
               physicalSize := env.brushPhysicalSize, voxelSizes := env.voxelSizes,
               timestamp := env.timestamp,
               points := if isValidPoint pt = true then [pt] else [] }) ∧
    ((mouseDownBranches env pt bg sm st).currentPrompt = st.currentPrompt ∨
      (mouseDownBranches env pt bg sm st).currentPrompt =
        some (.point pt env.promptPolarity) ∨
      (mouseDownBranches env pt bg sm st).currentPrompt =
        some (.bbox pt pt env.promptPolarity) ∨
      (mouseDownBranches env pt bg sm st).currentPrompt =
        some (.scribble (if isValidPoint pt = true then [pt] else [])
          env.promptPolarity) ∨
      (mouseDownBranches env pt bg sm st).currentPrompt =
        some (.lasso (if isValidPoint pt = true then [pt] else [])
          env.promptPolarity)) := by
  unfold mouseDownBranches
  split_ifs <;> simp_all

theorem noAdjacentDup_ifShort (c : Bool) (pt : StrokePoint) :
    noAdjacentDup (if c = true then [pt] else []) := by
  split
  · exact List.chain'_singleton _
  · exact List.chain'_nil

theorem mouseDownBranches_captureInv (env : MouseDownEnv) (pt : StrokePoint)
    (bg : Bool) (sm : String) (st : CaptureState) (h : captureInv st) :
    captureInv (mouseDownBranches env pt bg sm st) := by
  obtain ⟨h1, h2, h3, h4, h5, h6⟩ := h
  obtain ⟨e1, e2, e3, e4⟩ := mouseDownBranches_shape env pt bg sm st
  refine ⟨?_, ?_, ?_, ?_, ?_, ?_⟩
  · intro s hs
    rcases e3 with e | e
    · exact h1 s (e ▸ hs)
    · rw [e] at hs
      simp only [Option.some.injEq] at hs
      subst hs
      exact noAdjacentDup_ifShort (isValidPoint pt) pt
  · intro pts pol hp
    rcases e4 with e | e | e | e | e <;> rw [e] at hp
    · exact h2 pts pol hp
    · simp at hp
    · simp at hp
    · simp only [Option.some.injEq, Prompt.scribble.injEq] at hp
      obtain ⟨hp1, hp2⟩ := hp
      subst hp1
      exact noAdjacentDup_ifShort (isValidPoint pt) pt
    · simp at hp
  · intro pts pol hp
    rcases e4 with e | e | e | e | e <;> rw [e] at hp
    · exact h3 pts pol hp
    · simp at hp
    · simp at hp
    · simp at hp
    · simp only [Option.some.injEq, Prompt.lasso.injEq] at hp
      obtain ⟨hp1, hp2⟩ := hp
      subst hp1
      exact noAdjacentDup_ifShort (isValidPoint pt) pt
  · rw [e1]
    exact h4
  · intro pts pol hp
    rw [e2] at hp
    exact h5 pts pol hp
  · intro pts pol hp
    rw [e2] at hp
    exact h6 pts pol hp

theorem onMoveP0_captureInv (env : MoveEnv) (st : CaptureState) (h : captureInv st) :
    captureInv (onMoveP0 env st) := by
  unfold onMoveP0
  split_ifs <;> first
    | exact h
    | exact moveRecord_captureInv _ st h

theorem onMoveP1_captureInv (env : MoveEnv) (st : CaptureState) (h : captureInv st) :
    captureInv (onMoveP1 env st) := by
  unfold onMoveP1
  split_ifs <;> first
    | exact h
    | exact moveRecord_captureInv _ st h

theorem onMoveH_captureInv (env : MoveEnv) (st : CaptureState) (h : captureInv st) :
    captureInv (onMoveH env st) := by
  have hcopy := h
  obtain ⟨h1, h2, h3, h4, h5, h6⟩ := hcopy
  unfold onMoveH
  split_ifs with g1 g2 g3
  · exact h
  · exact h
  · cases hs : st.currentStroke with
    | some s =>
      dsimp only
      split_ifs with gm
      · refine ⟨?_, h2, h3, h4, h5, h6⟩
        intro a ha
        simp only [Option.some.injEq] at ha
        subst ha
        exact pushUniquePoint_noAdjacentDup s.points _ (h1 s hs)
      · exact h
    | none => exact moveRecord_captureInv _ st h
  · exact h

theorem onMouseDownH_captureInv (env : MouseDownEnv) (st : CaptureState)
    (h : captureInv st) : captureInv (onMouseDownH env st) := by
  unfold onMouseDownH
  split_ifs
  · exact h
  · exact mouseDownBranches_captureInv env _ _ _ st h

theorem onMouseDownP0_captureInv (env : MouseDownEnv) (st : CaptureState)
    (h : captureInv st) : captureInv (onMouseDownP0 env st) := by
  unfold onMouseDownP0
  split_ifs <;> first
    | exact h
    | exact mouseDownBranches_captureInv env _ _ _ st h

theorem onMouseDownP1_captureInv (env : MouseDownEnv) (st : CaptureState)
    (h : captureInv st) : captureInv (onMouseDownP1 env st) := by
  unfold onMouseDownP1
  split_ifs <;> first
    | exact h
    | exact mouseDownBranches_captureInv env _ _ _ st h

theorem commitStrokeP0_captureInv (st : CaptureState) (h : captureInv st) :
    captureInv (commitStrokeP0 st).1 := by
  obtain ⟨h1, h2, h3, h4, h5, h6⟩ := h
  cases hs : st.currentStroke with
  | some s =>
    cases hp : st.currentPrompt with
    | some pr =>
      have hres : (commitStrokeP0 st).1 =
          { isCapturing := false, currentStroke := none, currentPrompt := none,
            strokeData := st.strokeData ++ [s], promptData := st.promptData ++ [pr] } := by
        simp [commitStrokeP0, hs, hp]
      rw [hres]
      refine ⟨?_, ?_, ?_, ?_, ?_, ?_⟩
      · intro a ha
        simp at ha
      · intro a b hq
        simp at hq
      · intro a b hq
        simp at hq
      · intro t ht
        rcases List.mem_append.mp ht with ht | ht
        · exact h4 t ht
        · rw [List.mem_singleton.mp ht]
          exact h1 s hs
      · intro pts pol hq
        rcases List.mem_append.mp hq with hq | hq
        · exact h5 pts pol hq
        · rw [← List.mem_singleton.mp hq] at hp
          exact h2 pts pol hp
      · intro pts pol hq
        rcases List.mem_append.mp hq with hq | hq
        · exact h6 pts pol hq
        · rw [← List.mem_singleton.mp hq] at hp
          exact h3 pts pol hp
    | none =>
      have hres : (commitStrokeP0 st).1 =
          { isCapturing := false, currentStroke := none, currentPrompt := none,
            strokeData := st.strokeData ++ [s], promptData := st.promptData } := by
        simp [commitStrokeP0, hs, hp]
      rw [hres]
      refine ⟨?_, ?_, ?_, ?_, h5, h6⟩
      · intro a ha
        simp at ha
      · intro a b hq
        simp at hq
      · intro a b hq
        simp at hq
      intro t ht
      rcases List.mem_append.mp ht with ht | ht
      · exact h4 t ht
      · rw [List.mem_singleton.mp ht]
        exact h1 s hs
  | none =>
    cases hp : st.currentPrompt with
    | some pr =>
      have hres : (commitStrokeP0 st).1 =
          { isCapturing := false, currentStroke := none, currentPrompt := none,
            strokeData := st.strokeData, promptData := st.promptData ++ [pr] } := by
        simp [commitStrokeP0, hs, hp]
      rw [hres]
      refine ⟨?_, ?_, ?_, h4, ?_, ?_⟩
      · intro a ha
        simp at ha
      · intro a b hq
        simp at hq
      · intro a b hq
        simp at hq
      · intro pts pol hq
        rcases List.mem_append.mp hq with hq | hq
        · exact h5 pts pol hq
        · rw [← List.mem_singleton.mp hq] at hp
          exact h2 pts pol hp
      · intro pts pol hq
        rcases List.mem_append.mp hq with hq | hq
        · exact h6 pts pol hq
        · rw [← List.mem_singleton.mp hq] at hp
          exact h3 pts pol hp
    | none =>
      have hres : (commitStrokeP0 st).1 = st := by
        simp [commitStrokeP0, hs, hp]
      rw [hres]
      exact ⟨h1, h2, h3, h4, h5, h6⟩

theorem commitStrokeP1_state_eq (am : Option String) (ef : Bool) (st : CaptureState) :
    (commitStrokeP1 am ef st).1 = (commitStrokeP0 st).1 := by
  cases hs : st.currentStroke <;> cases hp : st.currentPrompt <;>
    simp [commitStrokeP0, commitStrokeP1, hs, hp]

theorem commitStrokeP1_captureInv (am : Option String) (ef : Bool) (st : CaptureState)
    (h : captureInv st) : captureInv (commitStrokeP1 am ef st).1 := by
  rw [commitStrokeP1_state_eq]
  exact commitStrokeP0_captureInv st h

theorem foldl_pushUniquePoint_noAdjacentDup (ps : List StrokePoint)
    (start : List StrokePoint) (h : noAdjacentDup start) :
    noAdjacentDup (ps.foldl pushUniquePoint start) := by
  induction ps generalizing start with
  | nil => simpa using h
  | cons q tl ih =>
    simpa using ih (pushUniquePoint start q) (pushUniquePoint_noAdjacentDup start q h)

theorem initial_captureInv : captureInv initialCaptureState := by
  refine ⟨?_, ?_, ?_, ?_, ?_, ?_⟩
  · intro s hs
    simp [initialCaptureState] at hs
  · intro pts pol hq
    simp [initialCaptureState] at hq
  · intro pts pol hq
    simp [initialCaptureState] at hq
  · intro s hs
    simp [initialCaptureState] at hs
  · intro pts pol hq
    simp [initialCaptureState] at hq
  · intro pts pol hq
    simp [initialCaptureState] at hq

/-- C8: `pushUniquePoint` (and the inline last-point comparison of the named
handler) preserves the invariant that no two consecutive recorded points
are equal in x, y and z, as does any fold of it; every mousedown, mousemove
and mouseup handler of the three variants preserves the invariant over the
stroke in progress, the scribble/lasso prompt in progress, and every
committed stroke and prompt — and it holds of the initial state, so every
committed stroke or prompt satisfies it. -/
theorem claim8_no_adjacent_duplicates (l : List StrokePoint) (p : StrokePoint)
    (ps : List StrokePoint) (menv : MoveEnv) (denv : MouseDownEnv)
    (st : CaptureState) (am : Option String) (ef : Bool) :
    (noAdjacentDup l → noAdjacentDup (pushUniquePoint l p)) ∧
    (noAdjacentDup l → noAdjacentDup (ps.foldl pushUniquePoint l)) ∧
    (captureInv st →
      captureInv (onMouseDownH denv st) ∧ captureInv (onMouseDownP0 denv st) ∧
      captureInv (onMouseDownP1 denv st) ∧ captureInv (onMoveH menv st) ∧
      captureInv (onMoveP0 menv st) ∧ captureInv (onMoveP1 menv st) ∧
      captureInv (commitStrokeP0 st).1 ∧ captureInv (commitStrokeP1 am ef st).1) ∧
    captureInv initialCaptureState :=
  ⟨pushUniquePoint_noAdjacentDup l p,
   foldl_pushUniquePoint_noAdjacentDup ps l,
   fun h => ⟨onMouseDownH_captureInv denv st h, onMouseDownP0_captureInv denv st h,
     onMouseDownP1_captureInv denv st h, onMoveH_captureInv menv st h,
     onMoveP0_captureInv menv st h, onMoveP1_captureInv menv st h,
     commitStrokeP0_captureInv st h, commitStrokeP1_captureInv am ef st h⟩,
   initial_captureInv⟩

/-- Witness for C8 at a concrete capture sequence. -/
theorem claim8_no_adjacent_duplicates_witness :
    noAdjacentDup (pushUniquePoint [⟨.fin 1, .fin 1, .fin 1⟩] ⟨.fin 1, .fin 1, .fin 1⟩) ∧
    captureInv (onMouseDownP0 c1good initialCaptureState) :=
  ⟨(claim8_no_adjacent_duplicates [⟨.fin 1, .fin 1, .fin 1⟩] ⟨.fin 1, .fin 1, .fin 1⟩
      [] ⟨true, none, none, none⟩ c1good initialCaptureState none false).1
      (List.chain'_singleton _),
   ((claim8_no_adjacent_duplicates [⟨.fin 1, .fin 1, .fin 1⟩] ⟨.fin 1, .fin 1, .fin 1⟩
      [] ⟨true, none, none, none⟩ c1good initialCaptureState none false).2.2.1
      initial_captureInv).2.1⟩

theorem lockStep_preserves_lock (s : LockState × NavState) (e : LockEvent)
    (h : e.isLockControl = false) : (lockStep s e).1 = s.1 := by
  cases e with
  | msgViewLocked bbox => simp [LockEvent.isLockControl] at h
  | msgViewUnlocked => simp [LockEvent.isLockControl] at h
  | msgReset => rfl
  | msgOther => rfl
  | navChange pos zoom => rfl

theorem lockRun_preserves_lock (evs : List LockEvent) (s : LockState × NavState)
    (h : ∀ e ∈ evs, e.isLockControl = false) : (lockRun s evs).1 = s.1 := by
  induction evs generalizing s with
  | nil => rfl
  | cons e tl ih =>
    have h1 := h e (List.mem_cons_self e tl)
    have h2 : ∀ x ∈ tl, x.isLockControl = false :=
      fun x hx => h x (List.mem_cons_of_mem e hx)
    calc (lockRun s (e :: tl)).1 = (lockRun (lockStep s e) tl).1 := rfl
      _ = (lockStep s e).1 := ih (lockStep s e) h2
      _ = s.1 := lockStep_preserves_lock s e h1

theorem lockStep_preserves_navSome (s : LockState × NavState) (e : LockEvent)
    (hp : (s.2.position).isSome = true) (hz : (s.2.zoomFactor).isSome = true) :
    ((lockStep s e).2.position).isSome = true ∧
    ((lockStep s e).2.zoomFactor).isSome = true := by
  cases e with
  | msgViewLocked bbox => exact ⟨hp, hz⟩
  | msgViewUnlocked => exact ⟨hp, hz⟩
  | msgReset =>
    simp only [lockStep]
    cases hlp : s.1.lockedPosition <;> cases hsp : s.2.position <;>
      cases hlz : s.1.lockedZoomFactor <;> cases hsz : s.2.zoomFactor <;>
      simp_all
  | msgOther => exact ⟨hp, hz⟩
  | navChange pos zoom => exact ⟨rfl, rfl⟩

theorem lockRun_preserves_navSome (evs : List LockEvent) (s : LockState × NavState)
    (hp : (s.2.position).isSome = true) (hz : (s.2.zoomFactor).isSome = true) :
    ((lockRun s evs).2.position).isSome = true ∧
    ((lockRun s evs).2.zoomFactor).isSome = true := by
  induction evs generalizing s with
  | nil => exact ⟨hp, hz⟩
  | cons e tl ih =>
    obtain ⟨hp2, hz2⟩ := lockStep_preserves_navSome s e hp hz
    exact ih (lockStep s e) hp2 hz2

theorem lockStep_reset_nav (s : LockState × NavState) (P : List ℚ) (Z : ℚ)
    (q : List ℚ) (r : ℚ)
    (hlp : s.1.lockedPosition = some P) (hlz : s.1.lockedZoomFactor = some Z)
    (hsp : s.2.position = some q) (hsz : s.2.zoomFactor = some r) :
    (lockStep s .msgReset).2 = ⟨some P, some Z⟩ := by
  simp [lockStep, hlp, hlz, hsp, hsz]

/-- C6: processing "view_locked" while the navigation position is P and the
zoom is Z stores them; as long as no further "view_locked" or
"view_unlocked" is processed (other messages and user navigation are
allowed), "reset_to_locked_view" puts the navigation state back to exactly
P and Z; "view_unlocked" clears the stored bounding box, position and zoom,
after which "reset_to_locked_view" leaves the navigation state unchanged. -/
theorem claim6_locked_roundtrip (ls : LockState) (nav : NavState) (P : List ℚ) (Z : ℚ)
    (bbox : Option LockedBBox) (evs : List LockEvent) :
    (nav.position = some P → nav.zoomFactor = some Z →
      (∀ e ∈ evs, e.isLockControl = false) →
      (lockStep (ls, nav) (.msgViewLocked bbox)).1.lockedPosition = some P ∧
      (lockStep (ls, nav) (.msgViewLocked bbox)).1.lockedZoomFactor = some Z ∧
      (lockStep (ls, nav) (.msgViewLocked bbox)).1.lockedBBox = bbox ∧
      (lockStep (lockRun (lockStep (ls, nav) (.msgViewLocked bbox)) evs)
          .msgReset).2.position = some P ∧
      (lockStep (lockRun (lockStep (ls, nav) (.msgViewLocked bbox)) evs)
          .msgReset).2.zoomFactor = some Z) ∧
    ((lockStep (ls, nav) .msgViewUnlocked).1 = initialLockState ∧
      (lockStep (lockStep (ls, nav) .msgViewUnlocked) .msgReset).2 =
        (lockStep (ls, nav) .msgViewUnlocked).2) := by
  constructor
  · intro hP hZ hevs
    have hs1lock : (lockStep (ls, nav) (.msgViewLocked bbox)).1 =
        ⟨bbox, some P, some Z⟩ := by
      simp [lockStep, hP, hZ]
    have hs1nav : (lockStep (ls, nav) (.msgViewLocked bbox)).2 = nav := rfl
    have hs2lock := lockRun_preserves_lock evs (lockStep (ls, nav) (.msgViewLocked bbox)) hevs
    have hs2nav := lockRun_preserves_navSome evs (lockStep (ls, nav) (.msgViewLocked bbox))
      (by rw [hs1nav, hP]; rfl) (by rw [hs1nav, hZ]; rfl)
    obtain ⟨q, hq⟩ := Option.isSome_iff_exists.mp hs2nav.1
    obtain ⟨r, hr⟩ := Option.isSome_iff_exists.mp hs2nav.2
    have hreset := lockStep_reset_nav
      (lockRun (lockStep (ls, nav) (.msgViewLocked bbox)) evs) P Z q r
      (by rw [hs2lock, hs1lock]) (by rw [hs2lock, hs1lock]) hq hr
    refine ⟨by rw [hs1lock], by rw [hs1lock], by rw [hs1lock], ?_, ?_⟩
    · rw [hreset]
    · rw [hreset]
  · constructor
    · rfl
    · rfl

/-- Witness for C6 at a concrete locked view, an interleaved pan, and a
reset. -/
theorem claim6_locked_roundtrip_witness :
    (lockStep (lockRun (lockStep (initialLockState, ⟨some [1, 2, 3], some 2⟩)
        (.msgViewLocked (some ⟨0, 5, 0, 5, 0, 5⟩)))
        [.navChange [9, 9, 9] 7, .msgOther]) .msgReset).2.position = some [1, 2, 3] :=
  ((claim6_locked_roundtrip initialLockState ⟨some [1, 2, 3], some 2⟩ [1, 2, 3] 2
      (some ⟨0, 5, 0, 5, 0, 5⟩) [.navChange [9, 9, 9] 7, .msgOther]).1
    rfl rfl (by intro e he; fin_cases he <;> rfl)).2.2.2.1
